import Mathlib

/-!
Verification of the SuperAgent agentic orchestrator.

A shallow embedding of `app/services/superagent_service.py`: the agentic
loop `handle_message`, the tool prioritizer `_prioritize_and_limit_tools`,
the connection-status check `_check_connection_status` and the
authorization sub-flow `_handle_toolkit_authorization`.

External collaborators (the Model Gateway, i.e. `LLMService`, and the Tool
Provider, i.e. `ComposioService`) are modelled as an environment record of
oracle functions; a call that raises an exception in Python is an oracle
returning `Except.error`.  The conversation store operations used by the
orchestrator (create with system message, append turn) are modelled from
the spec as list appends, since `conversation_service.py` is not among the
sources; the history of one conversation is a `List Turn`.

Python-specific details preserved by the model:
  * `tc.get("id", "")` — a missing call-id is the empty string, so a
    `ToolCall` carries `id : String` directly;
  * truthiness — an extracted toolkit that is the empty string is falsy and
    skips the connection check, exactly like `None`;
  * `x or default` — both `None` and `""` fall through to the default.

The dict payloads of tool results (the `data` field) never influence the
control flow of the orchestrator and are projected away: a `ToolResult` keeps
the `successful` flag and the `error` field.
-/

namespace SuperAgent

/-- Max iterations to prevent infinite tool-call loops (source line 30). -/
def MAX_TOOL_ITERATIONS : Nat := 10

/-- Maximum number of tools to provide to the LLM at once (source line 33). -/
def MAX_TOOLS_PER_REQUEST : Nat := 12

/-- The system instruction inserted at conversation creation.  The claims do
not depend on its text; we keep an abridged constant. -/
def SYSTEM_PROMPT : String :=
  "You are SuperAgent, an intelligent AI assistant with access to real-world tools via Composio."

/-- A tool-call intent returned by the model: `{id, name, arguments}`.
`tc.get("id", "")` collapses a missing id to `""`, so `id` is a plain
string.  Arguments are a string-keyed map (`tool_args`). -/
structure ToolCall where
  id : String
  name : String
  arguments : List (String × String)
deriving DecidableEq, Repr

/-- A tool definition dict.  `functionName` is `tool["function"]["name"]`
when both keys are present (`none` otherwise); `payload` stands for the
rest of the definition, so that two tools compare equal exactly when all
their parts do (the `tool not in available_tools` dedup check). -/
structure Tool where
  functionName : Option String
  payload : Nat
deriving DecidableEq, Repr

/-- A structured tool result: the `successful` flag and the `error` field
of the result dict (the free-form `data` payload is projected away). -/
structure ToolResult where
  successful : Bool
  error : Option String
deriving DecidableEq, Repr

/-- The model gateway reply: `{content, tool_calls}`.  An absent or `None`
content is `none`; an absent or `None` `tool_calls` is the empty list
(both are falsy in the loop condition). -/
structure LlmResponse where
  content : Option String
  toolCalls : List ToolCall
deriving DecidableEq, Repr

/-- The `_check_connection_status` result dict:
`{"connected": _, "requires_auth": _, "status": _}`. -/
structure ToolkitConnectionStatus where
  connected : Bool
  requiresAuth : Bool
  status : String
deriving DecidableEq, Repr

/-- The `authorize_toolkit` response:
`{status, redirect_url, connection_request_id}`. -/
structure AuthResponse where
  status : String
  redirectUrl : String
  connectionRequestId : Option String
deriving DecidableEq, Repr

/-- The `wait_for_connection` response: `{status, message}`. -/
structure WaitResponse where
  status : String
  message : Option String
deriving DecidableEq, Repr

/-- One entry of a conversation history.
Modelled from the spec: the Conversation Store owns an append-only ordered
sequence of turns; `conversation_service.py` is not among the sources, so
its append operations are list appends on this type.  An assistant turn
carries the tool-call intents recorded at source lines 386-406; a tool
turn carries the `tool_call_id` back-reference and the result recorded at
source lines 573-581. -/
inductive Turn where
  | system (content : String)
  | user (content : String)
  | assistant (content : String) (toolCalls : List ToolCall)
  | toolTurn (toolCallId : String) (name : String) (result : ToolResult)
deriving DecidableEq, Repr

/-- Events yielded by the orchestrator stream (source lines 326-334). -/
inductive Event where
  | errorEv (message : String)
  | toolCallEv (name : String) (arguments : List (String × String))
  | toolSearch (query : String) (toolsFound : Nat) (toolkits : List String)
  | connectionStatus (toolkit : String) (connected : Bool) (requiresAuth : Bool)
  | connectionRequired (toolkit : String) (redirectUrl : String)
      (connectionRequestId : Option String) (message : String)
  | connectionWaiting (toolkit : String) (message : String)
  | connectionEstablished (toolkit : String) (message : String)
  | toolResultEv (name : String) (result : ToolResult)
  | replyEv (conversationId : String) (content : String)
deriving DecidableEq, Repr

/-- The environment of external collaborators.  Each field is one oracle;
`Except.error e` models the Python call raising an exception with message
`e`.  `llm` covers both `chat_raw` (empty tool list) and
`chat_with_tools_raw`; the formatting done by
`get_formatted_history_for_model` is absorbed into the oracle. -/
structure Env where
  composioInitialized : Bool
  llm : List Turn → List Tool → Except String LlmResponse
  searchTools : String → String → Except String (List Tool)
  connectedToolkits : String → Except String (List String)
  toToolkitSlug : String → String
  statusNoAuthRequired : String
  statusConnected : String
  authorize : String → String → Except String AuthResponse
  waitForConnection : String → String → String → Except String WaitResponse
  executeTool : String → List (String × String) → String → Except String ToolResult

/-- Python `x or default` for an optional string: `None` and `""` are
falsy and fall through to the default. -/
def pyOr (x : Option String) (default : String) : String :=
  match x with
  | some s => if s == "" then default else s
  | none => default

/-- Append an element to a list-as-set unless already present
(`set.add` / `if tool not in list: list.append(tool)`). -/
def insertIfNew {α : Type} [BEq α] (acc : List α) (x : α) : List α :=
  if acc.contains x then acc else acc ++ [x]

/-- ASCII upper-casing of one character (`str.upper()` on the ASCII names
this service handles). -/
def charToUpper (c : Char) : Char :=
  if 97 ≤ c.toNat ∧ c.toNat ≤ 122 then Char.ofNat (c.toNat - 32) else c

/-- ASCII lower-casing of one character (`str.lower()`). -/
def charToLower (c : Char) : Char :=
  if 65 ≤ c.toNat ∧ c.toNat ≤ 90 then Char.ofNat (c.toNat + 32) else c

/-- Python `s.upper()` over the character list of `s`. -/
def strUpper (s : String) : String :=
  String.mk (s.toList.map charToUpper)

/-- Python `s.lower()` over the character list of `s`. -/
def strLower (s : String) : String :=
  String.mk (s.toList.map charToLower)

/-- Python `s.split("_")` on the character list: code point 95 is the
underscore.  `"".split("_") = [""]`, `"_".split("_") = ["", ""]`. -/
def splitOnUnderscore : List Char → List (List Char)
  | [] => [[]]
  | c :: rest =>
    let r := splitOnUnderscore rest
    if c.toNat == 95 then [] :: r
    else
      match r with
      | [] => [[c]]
      | g :: gs => (c :: g) :: gs

/-- Whether `pat` is a leading run of `s` (character lists). -/
def listStartsWith : List Char → List Char → Bool
  | _, [] => true
  | [], _ :: _ => false
  | c :: cs, p :: ps => c == p && listStartsWith cs ps

/-- Whether `pat` occurs contiguously inside `s` (character lists). -/
def listHasInfixRun (pat : List Char) : List Char → Bool
  | [] => pat.isEmpty
  | c :: rest => listStartsWith (c :: rest) pat || listHasInfixRun pat rest

/-- Python `pat in s` substring containment. -/
def strContains (s pat : String) : Bool :=
  listHasInfixRun pat.toList s.toList

/-- Embeds `_extract_toolkit_from_tool_name` (source lines 127-137): split on
underscores; with at least two parts, the first part upper-cased, else
`None`. -/
def extractToolkitFromToolName (toolName : String) : Option String :=
  let parts := splitOnUnderscore toolName.toList
  if parts.length ≥ 2 then some (String.mk ((parts.headD []).map charToUpper)) else none

/-- Embeds `_extract_toolkit_from_tool` (source lines 112-125): the same logic on
`tool["function"]["name"]` when both keys are present. -/
def extractToolkitFromTool (t : Tool) : Option String :=
  match t.functionName with
  | some toolName =>
    let parts := splitOnUnderscore toolName.toList
    if parts.length ≥ 2 then some (String.mk ((parts.headD []).map charToUpper)) else none
  | none => none

/-- The fixed keyword → toolkit association table (source lines 168-180).
`none` is the Python `None` entry for generic words. -/
def toolkitKeywords : List (String × Option String) :=
  [("gmail", some "GMAIL"),
   ("google", some "GMAIL"),
   ("github", some "GITHUB"),
   ("git", some "GITHUB"),
   ("slack", some "SLACK"),
   ("email", none),
   ("calendar", some "GOOGLECALENDAR"),
   ("drive", some "GOOGLEDRIVE"),
   ("sheets", some "GOOGLESHEETS"),
   ("jira", some "JIRA"),
   ("trello", some "TRELLO")]

/-- The mentioned-toolkit set derived from the lower-cased user message
(source lines 163-184), as a duplicate-free list. -/
def mentionedToolkits (userMessage : String) : List String :=
  let messageLower := strLower userMessage
  toolkitKeywords.foldl
    (fun acc kv =>
      match kv.2 with
      | some tk => if strContains messageLower kv.1 then insertIfNew acc tk else acc
      | none => acc)
    []

/-- The prioritization predicate of the partition loop (source lines
190-195): the extracted toolkit is truthy and in the mentioned set. -/
def isPrioritizedTool (mentioned : List String) (t : Tool) : Bool :=
  match extractToolkitFromTool t with
  | some tk => !(tk == "") && mentioned.contains tk
  | none => false

/-- Embeds `_prioritize_and_limit_tools` (source lines 139-208). -/
def prioritizeAndLimitTools (tools : List Tool) (userMessage : String)
    (maxTools : Nat) : List Tool :=
  if tools.length ≤ maxTools then tools
  else
    let mentioned := mentionedToolkits userMessage
    let prioritized := tools.filter (isPrioritizedTool mentioned)
    let others := tools.filter (fun t => !(isPrioritizedTool mentioned t))
    let result := prioritized.take maxTools
    result ++ others.take (maxTools - result.length)

/-- Embeds `_check_connection_status` (source lines 210-237). -/
def checkConnectionStatus (env : Env) (userId toolkit : String) :
    ToolkitConnectionStatus :=
  match env.connectedToolkits userId with
  | .error _ => { connected := false, requiresAuth := true, status := "unknown" }
  | .ok tks =>
    let isConnected := tks.any (fun tk => strLower (env.toToolkitSlug tk) == strLower toolkit)
    { connected := isConnected, requiresAuth := !isConnected,
      status := if isConnected then "connected" else "not_connected" }

/-- Embeds `_handle_toolkit_authorization` (source lines 239-312), together with
its consumption at source lines 521-530: the events yielded, paired with
the `auth_successful` flag the consumer computes (the generator emits
`connection_established` only as its final event, so the break-on-error
of the consumer sees exactly the output of the generator). -/
def handleToolkitAuthorization (env : Env) (userId toolkit : String) :
    List Event × Bool :=
  match env.authorize userId toolkit with
  | .error e =>
    ([Event.errorEv ("Authorization error for " ++ toolkit ++ ": " ++ e)], false)
  | .ok ar =>
    if ar.status == env.statusNoAuthRequired then
      ([Event.connectionEstablished toolkit
          (toolkit ++ " does not require authentication")], true)
    else
      let requiredEv := Event.connectionRequired toolkit ar.redirectUrl
        ar.connectionRequestId
        ("Please authenticate with " ++ toolkit ++ " using the provided link")
      let waitingEv := Event.connectionWaiting toolkit
        ("Waiting for " ++ toolkit ++ " authentication...")
      match env.waitForConnection (ar.connectionRequestId.getD "") userId toolkit with
      | .error e =>
        ([requiredEv, waitingEv,
          Event.errorEv ("Authorization error for " ++ toolkit ++ ": " ++ e)], false)
      | .ok wr =>
        if wr.status == env.statusConnected then
          ([requiredEv, waitingEv,
            Event.connectionEstablished toolkit
              (pyOr wr.message ("Successfully connected to " ++ toolkit))], true)
        else
          ([requiredEv, waitingEv,
            Event.errorEv ("Failed to connect to " ++ toolkit ++ ": " ++ wr.status)],
           false)

/-- The COMPOSIO_SEARCH tool definition (source lines 78-110); `payload 0`
stands for its description and parameter schema. -/
def composioSearchTool : Tool :=
  { functionName := some "COMPOSIO_SEARCH", payload := 0 }

/-- The mutable loop state: the conversation history and the visible tool
set `available_tools`. -/
structure StepState where
  history : List Turn
  availableTools : List Tool
deriving Repr

/-- The result a tool-result turn records for an authorization failure
(source lines 533-537). -/
def authFailureResult (toolkit : String) : ToolResult :=
  { successful := false, error := some ("Authorization failed for " ++ toolkit) }

/-- The provider invocation `execute_tool_for_user` wrapped at source lines 554-563: an exception
becomes `{"data": {}, "error": str(exc), "successful": False}`. -/
def execToolResult (env : Env) (userId : String) (tc : ToolCall) : ToolResult :=
  match env.executeTool tc.name tc.arguments userId with
  | .ok r => r
  | .error e => { successful := false, error := some e }

/-- The COMPOSIO_SEARCH branch (source lines 419-501): the events emitted
before the tool-result event, the tool result, and the updated visible
tool set. -/
def runSearchIntent (env : Env) (userId userMessage : String)
    (avail : List Tool) (tc : ToolCall) : List Event × ToolResult × List Tool :=
  let query := (tc.arguments.lookup "query").getD ""
  if query == "" then
    ([], { successful := false, error := some "Missing query parameter" }, avail)
  else
    match env.searchTools userId query with
    | .error e => ([], { successful := false, error := some e }, avail)
    | .ok found =>
      let toolkitsInResults := (found.filterMap extractToolkitFromTool).foldl insertIfNew []
      let prioritized := prioritizeAndLimitTools found userMessage MAX_TOOLS_PER_REQUEST
      let avail2 := prioritized.foldl insertIfNew avail
      ([Event.toolSearch query found.length toolkitsInResults],
       { successful := true, error := none }, avail2)

/-- Processing of one tool-call intent in the body of the agentic loop
(source lines 408-581): the events yielded for this intent and the updated
state.  Every branch records exactly one tool-result turn. -/
def processToolCall (env : Env) (userId userMessage : String)
    (st : StepState) (tc : ToolCall) : List Event × StepState :=
  let callEv := Event.toolCallEv tc.name tc.arguments
  if tc.name == "COMPOSIO_SEARCH" then
    let r := runSearchIntent env userId userMessage st.availableTools tc
    (callEv :: r.1 ++ [Event.toolResultEv tc.name r.2.1],
     { history := st.history ++ [Turn.toolTurn tc.id tc.name r.2.1],
       availableTools := r.2.2 })
  else
    match extractToolkitFromToolName tc.name with
    | some tk =>
      if tk == "" then
        -- the empty toolkit string is falsy: no connection check
        let res := execToolResult env userId tc
        ([callEv, Event.toolResultEv tc.name res],
         { st with history := st.history ++ [Turn.toolTurn tc.id tc.name res] })
      else
        let conn := checkConnectionStatus env userId tk
        let statusEv := Event.connectionStatus tk conn.connected conn.requiresAuth
        if conn.connected then
          let res := execToolResult env userId tc
          ([callEv, statusEv, Event.toolResultEv tc.name res],
           { st with history := st.history ++ [Turn.toolTurn tc.id tc.name res] })
        else
          let auth := handleToolkitAuthorization env userId tk
          if auth.2 then
            let res := execToolResult env userId tc
            (callEv :: statusEv :: auth.1 ++ [Event.toolResultEv tc.name res],
             { st with history := st.history ++ [Turn.toolTurn tc.id tc.name res] })
          else
            let res := authFailureResult tk
            (callEv :: statusEv :: auth.1 ++ [Event.toolResultEv tc.name res],
             { st with history := st.history ++ [Turn.toolTurn tc.id tc.name res] })
    | none =>
      let res := execToolResult env userId tc
      ([callEv, Event.toolResultEv tc.name res],
       { st with history := st.history ++ [Turn.toolTurn tc.id tc.name res] })

/-- The `for tc in llm_response["tool_calls"]` loop: process the intents in
order, threading the state. -/
def processToolCalls (env : Env) (userId userMessage : String)
    (st : StepState) : List ToolCall → List Event × StepState
  | [] => ([], st)
  | tc :: rest =>
    let r1 := processToolCall env userId userMessage st tc
    let r2 := processToolCalls env userId userMessage r1.2 rest
    (r1.1 ++ r2.1, r2.2)

/-- The number of COMPOSIO_SEARCH intents in a batch. -/
def countSearchIntents (tcs : List ToolCall) : Nat :=
  (tcs.filter (fun tc => tc.name == "COMPOSIO_SEARCH")).length

/-- The observable outcome of one `handle_message` run: the event stream,
the final conversation history, the number of executed tool-call rounds,
the visible tool set passed to each Model Gateway call, and the number of
COMPOSIO_SEARCH intents processed. -/
structure RunResult where
  events : List Event
  history : List Turn
  rounds : Nat
  llmCalls : List (List Tool)
  searchCalls : Nat
deriving Repr

/-- The final store-and-reply step (source lines 597-609). -/
def finalize (cid : String) (st : StepState) (resp : LlmResponse) : RunResult :=
  { events := [Event.replyEv cid (resp.content.getD "")],
    history := st.history ++ [Turn.assistant (resp.content.getD "") []],
    rounds := 0, llmCalls := [], searchCalls := 0 }

/-- The agentic while-loop (source lines 379-595).  The loop variable
`iterations` starts at 0 and the guard is `iterations < MAX_TOOL_ITERATIONS`;
`fuel = MAX_TOOL_ITERATIONS - iterations` is the strictly decreasing
variant, so the recursion below is the loop verbatim.  `rounds`, `llmCalls`
and `searchCalls` record, per run, the executed iterations, the tools
argument of each follow-up gateway call, and the processed search intents. -/
def agenticLoop (env : Env) (userId userMessage cid : String) :
    Nat → StepState → LlmResponse → RunResult
  | 0, st, resp => finalize cid st resp
  | fuel + 1, st, resp =>
    match resp.toolCalls with
    | [] => finalize cid st resp
    | tc :: tcs =>
      let st1 : StepState :=
        { st with history := st.history ++ [Turn.assistant (resp.content.getD "") (tc :: tcs)] }
      let pr := processToolCalls env userId userMessage st1 (tc :: tcs)
      match env.llm pr.2.history pr.2.availableTools with
      | .error e =>
        { events := pr.1 ++ [Event.errorEv ("LLM error: " ++ e)],
          history := pr.2.history, rounds := 1,
          llmCalls := [pr.2.availableTools],
          searchCalls := countSearchIntents (tc :: tcs) }
      | .ok resp2 =>
        let r := agenticLoop env userId userMessage cid fuel pr.2 resp2
        { events := pr.1 ++ r.events, history := r.history,
          rounds := 1 + r.rounds,
          llmCalls := pr.2.availableTools :: r.llmCalls,
          searchCalls := countSearchIntents (tc :: tcs) + r.searchCalls }

/-- The history right after conversation creation and the user append
(source lines 346-354).  Modelled from the spec: the Conversation Store
inserts the system instruction once at creation of a new conversation and
appends the user turn. -/
def initialHistory (msg : String) : List Turn :=
  [Turn.system SYSTEM_PROMPT, Turn.user msg]

/-- The initial visible tool set (source lines 356-363). -/
def initialTools (env : Env) : List Tool :=
  if env.composioInitialized then [composioSearchTool] else []

/-- Embeds `handle_message` (source lines 316-609) for a fresh conversation whose
store-assigned id is `cid`: the first gateway call, then the agentic loop. -/
def handleMessage (env : Env) (userId msg cid : String) : RunResult :=
  match env.llm (initialHistory msg) (initialTools env) with
  | .error e =>
    { events := [Event.errorEv ("LLM error: " ++ e)],
      history := initialHistory msg, rounds := 0,
      llmCalls := [initialTools env], searchCalls := 0 }
  | .ok resp =>
    let r := agenticLoop env userId msg cid MAX_TOOL_ITERATIONS
      { history := initialHistory msg, availableTools := initialTools env } resp
    { r with llmCalls := initialTools env :: r.llmCalls }

/-- The call-ids of all tool-call intents recorded in assistant turns of a
history, in order. -/
def intentIds : List Turn → List String
  | [] => []
  | Turn.assistant _ tcs :: rest => tcs.map ToolCall.id ++ intentIds rest
  | Turn.system _ :: rest => intentIds rest
  | Turn.user _ :: rest => intentIds rest
  | Turn.toolTurn _ _ _ :: rest => intentIds rest

/-- Referential integrity of a history: scanning left to right with the
intent ids seen so far (`ids` holds the ids of a preceding context), every
`tool_call_id` of every tool-result turn matches exactly one previously recorded
tool-call intent. -/
def toolTurnsCorrelate : List Turn → List String → Bool
  | [], _ => true
  | Turn.assistant _ tcs :: rest, ids => toolTurnsCorrelate rest (ids ++ tcs.map ToolCall.id)
  | Turn.toolTurn tcid _ _ :: rest, ids => (ids.count tcid == 1) && toolTurnsCorrelate rest ids
  | Turn.system _ :: rest, ids => toolTurnsCorrelate rest ids
  | Turn.user _ :: rest, ids => toolTurnsCorrelate rest ids

/-! ## Concrete stub environments used by witnesses and counterexamples -/

/-- A pending authorization response used by the benign stub. -/
def pendingAuthResponse : AuthResponse :=
  { status := "pending", redirectUrl := "http://auth", connectionRequestId := some "req1" }

/-- An authorization response signalling that no auth is required. -/
def noAuthRequiredResponse : AuthResponse :=
  { status := "no_auth_required", redirectUrl := "", connectionRequestId := none }

/-- A benign stub environment: the gateway replies without tool calls, the
provider succeeds everywhere. -/
def baseEnv : Env :=
  { composioInitialized := true,
    llm := fun _ _ => Except.ok { content := some "done", toolCalls := [] },
    searchTools := fun _ _ => .ok [],
    connectedToolkits := fun _ => .ok [],
    toToolkitSlug := fun s => s,
    statusNoAuthRequired := "no_auth_required",
    statusConnected := "connected",
    authorize := fun _ _ => Except.ok pendingAuthResponse,
    waitForConnection := fun _ _ _ => Except.ok { status := "connected", message := none },
    executeTool := fun _ _ _ => Except.ok { successful := true, error := none } }

/-- A stub whose gateway raises on every call. -/
def envLlmFails : Env :=
  { baseEnv with llm := fun _ _ => Except.error "boom" }

/-- A stub whose Authorize reports that no authorization is required. -/
def envNoAuth : Env :=
  { baseEnv with authorize := fun _ _ => Except.ok noAuthRequiredResponse }

/-- A stub whose connected-toolkits query raises. -/
def envStatusFails : Env :=
  { baseEnv with connectedToolkits := fun _ => Except.error "down" }

/-- A tool of toolkit GITHUB, for the prioritizer example. -/
def ghTool (i : Nat) : Tool :=
  { functionName := some ("GITHUB_ACTION" ++ toString i), payload := 100 + i }

/-- A tool of an unmentioned toolkit, for the prioritizer example. -/
def otherTool (i : Nat) : Tool :=
  { functionName := some ("OTHER_ACTION" ++ toString i), payload := i }

/-- Twenty tools, three of which belong to toolkit GITHUB (positions 3, 7
and 13 in input order). -/
def exampleTools20 : List Tool :=
  [otherTool 1, otherTool 2, ghTool 1, otherTool 3, otherTool 4, otherTool 5, ghTool 2,
   otherTool 6, otherTool 7, otherTool 8, otherTool 9, otherTool 10, ghTool 3,
   otherTool 11, otherTool 12, otherTool 13, otherTool 14, otherTool 15, otherTool 16,
   otherTool 17]

/-! ## Supporting lemmas -/

/-- The rounds counter of the loop is bounded by the fuel. -/
theorem agenticLoop_rounds_le (env : Env) (userId userMessage cid : String) :
    ∀ (fuel : Nat) (st : StepState) (resp : LlmResponse),
      (agenticLoop env userId userMessage cid fuel st resp).rounds ≤ fuel := by
  intro fuel
  induction fuel with
  | zero => intro st resp; simp [agenticLoop, finalize]
  | succ n ih =>
    intro st resp
    cases h : resp.toolCalls with
    | nil => simp [agenticLoop, h, finalize]
    | cons tc tcs =>
      simp only [agenticLoop, h]
      split
      · simp
      · dsimp only
        rw [Nat.add_comm 1]
        exact Nat.succ_le_succ (ih _ _)

/-- The `requires_auth` field is always the negation of `connected`. -/
theorem checkConnectionStatus_requiresAuth (env : Env) (userId toolkit : String) :
    (checkConnectionStatus env userId toolkit).requiresAuth =
      !(checkConnectionStatus env userId toolkit).connected := by
  unfold checkConnectionStatus
  cases hk : env.connectedToolkits userId <;> simp [hk]

/-- Whenever a round enters the loop body, the Model Gateway is consulted
again after the intents are processed. -/
theorem agenticLoop_recalls_gateway (env : Env) (userId userMessage cid : String)
    (fuel : Nat) (st : StepState) (resp : LlmResponse) (h : resp.toolCalls ≠ []) :
    (agenticLoop env userId userMessage cid (fuel + 1) st resp).llmCalls ≠ [] := by
  cases hc : resp.toolCalls with
  | nil => exact absurd hc h
  | cons tc tcs =>
    simp only [agenticLoop, hc]
    split
    · simp
    · simp

/-- The prioritizer never returns more than `maxTools` tools. -/
theorem prioritizeAndLimitTools_length_le (tools : List Tool) (userMessage : String)
    (maxTools : Nat) : (prioritizeAndLimitTools tools userMessage maxTools).length ≤ maxTools := by
  rw [prioritizeAndLimitTools]
  split
  · next h => exact h
  · dsimp only
    simp only [List.length_append, List.length_take]
    omega

/-- Folding `insertIfNew` adds at most one element per input. -/
theorem foldl_insertIfNew_length {α : Type} [BEq α] (l : List α) :
    ∀ acc : List α, (l.foldl insertIfNew acc).length ≤ acc.length + l.length := by
  induction l with
  | nil => intro acc; simp
  | cons x xs ih =>
    intro acc
    have h1 : (insertIfNew acc x).length ≤ acc.length + 1 := by
      unfold insertIfNew
      split
      · omega
      · simp
    have h2 := ih (insertIfNew acc x)
    simp only [List.foldl_cons]
    calc (xs.foldl insertIfNew (insertIfNew acc x)).length
        ≤ (insertIfNew acc x).length + xs.length := h2
      _ ≤ acc.length + 1 + xs.length := by omega
      _ = acc.length + (x :: xs).length := by simp; omega

/-- One search intent extends the visible tool set by at most the cap. -/
theorem runSearchIntent_avail_length (env : Env) (userId userMessage : String)
    (avail : List Tool) (tc : ToolCall) :
    (runSearchIntent env userId userMessage avail tc).2.2.length ≤
      avail.length + MAX_TOOLS_PER_REQUEST := by
  simp only [runSearchIntent]
  split
  · simp
  · split
    · simp
    · dsimp only
      next found _ =>
      have h1 := foldl_insertIfNew_length
        (prioritizeAndLimitTools found userMessage MAX_TOOLS_PER_REQUEST) avail
      have h2 := prioritizeAndLimitTools_length_le found userMessage MAX_TOOLS_PER_REQUEST
      omega

/-- One intent extends the visible tool set by at most the cap, and only
when it is a search intent. -/
theorem processToolCall_avail_length (env : Env) (userId userMessage : String)
    (st : StepState) (tc : ToolCall) :
    (processToolCall env userId userMessage st tc).2.availableTools.length ≤
      st.availableTools.length +
        MAX_TOOLS_PER_REQUEST * (if tc.name == "COMPOSIO_SEARCH" then 1 else 0) := by
  by_cases hb : (tc.name == "COMPOSIO_SEARCH") = true
  · rw [if_pos hb]
    unfold processToolCall
    rw [if_pos hb]
    dsimp only
    have h1 := runSearchIntent_avail_length env userId userMessage st.availableTools tc
    omega
  · rw [if_neg hb]
    unfold processToolCall
    rw [if_neg hb]
    split
    · split
      · simp
      · dsimp only
        split
        · simp
        · split
          · simp
          · simp
    · simp

/-- Processing a batch of intents extends the visible tool set by at most
the cap per search intent. -/
theorem processToolCalls_avail_length (env : Env) (userId userMessage : String) :
    ∀ (tcs : List ToolCall) (st : StepState),
      (processToolCalls env userId userMessage st tcs).2.availableTools.length ≤
        st.availableTools.length + MAX_TOOLS_PER_REQUEST * countSearchIntents tcs := by
  intro tcs
  induction tcs with
  | nil => intro st; simp [processToolCalls, countSearchIntents]
  | cons tc rest ih =>
    intro st
    have h1 := processToolCall_avail_length env userId userMessage st tc
    have h2 := ih (processToolCall env userId userMessage st tc).2
    have hc : countSearchIntents (tc :: rest) =
        (if tc.name == "COMPOSIO_SEARCH" then 1 else 0) + countSearchIntents rest := by
      unfold countSearchIntents
      rw [List.filter_cons]
      split
      · simp; omega
      · simp
    simp only [processToolCalls]
    by_cases hb : (tc.name == "COMPOSIO_SEARCH") = true
    · rw [if_pos hb] at h1
      rw [hc, if_pos hb]
      simp only [MAX_TOOLS_PER_REQUEST] at h1 h2 ⊢
      omega
    · rw [if_neg hb] at h1
      rw [hc, if_neg hb]
      simp only [MAX_TOOLS_PER_REQUEST] at h1 h2 ⊢
      omega

/-- Every visible tool set recorded at a follow-up gateway call is
bounded by the entry size plus the cap times the searches of the run. -/
theorem agenticLoop_llmCalls_bound (env : Env) (userId userMessage cid : String) :
    ∀ (fuel : Nat) (st : StepState) (resp : LlmResponse),
      ∀ ts ∈ (agenticLoop env userId userMessage cid fuel st resp).llmCalls,
        ts.length ≤ st.availableTools.length +
          MAX_TOOLS_PER_REQUEST *
            (agenticLoop env userId userMessage cid fuel st resp).searchCalls := by
  intro fuel
  induction fuel with
  | zero => intro st resp ts hts; simp [agenticLoop, finalize] at hts
  | succ n ih =>
    intro st resp ts hts
    cases hc : resp.toolCalls with
    | nil =>
      simp only [agenticLoop, hc] at hts
      simp [finalize] at hts
    | cons tc tcs =>
      simp only [agenticLoop, hc] at hts ⊢
      split at hts
      · next e hllm =>
        simp only [hllm] at hts ⊢
        simp only [List.mem_singleton] at hts
        subst hts
        have h1 := processToolCalls_avail_length env userId userMessage (tc :: tcs)
          { st with history := st.history ++ [Turn.assistant (resp.content.getD "") (tc :: tcs)] }
        dsimp only at h1 ⊢
        simp only [MAX_TOOLS_PER_REQUEST] at h1 ⊢
        omega
      · next resp2 hllm =>
        simp only [hllm] at hts ⊢
        have h1 := processToolCalls_avail_length env userId userMessage (tc :: tcs)
          { st with history := st.history ++ [Turn.assistant (resp.content.getD "") (tc :: tcs)] }
        dsimp only at h1 ⊢
        rcases List.mem_cons.mp hts with hts1 | hts2
        · subst hts1
          simp only [MAX_TOOLS_PER_REQUEST] at h1 ⊢
          omega
        · have h2 := ih _ resp2 ts hts2
          simp only [MAX_TOOLS_PER_REQUEST] at h1 h2 ⊢
          omega

/-- The function `intentIds` distributes over history concatenation. -/
theorem intentIds_append : ∀ (h1 h2 : List Turn),
    intentIds (h1 ++ h2) = intentIds h1 ++ intentIds h2 := by
  intro h1
  induction h1 with
  | nil => intro h2; simp [intentIds]
  | cons t rest ih =>
    intro h2
    cases t <;> simp [intentIds, ih]

/-- Correlation over a concatenation: the left part correlates against the
context, the right part against the context extended with the intents of
the left part. -/
theorem toolTurnsCorrelate_append : ∀ (h1 h2 : List Turn) (ids : List String),
    toolTurnsCorrelate (h1 ++ h2) ids =
      (toolTurnsCorrelate h1 ids && toolTurnsCorrelate h2 (ids ++ intentIds h1)) := by
  intro h1
  induction h1 with
  | nil => intro h2 ids; simp [toolTurnsCorrelate, intentIds]
  | cons t rest ih =>
    intro h2 ids
    cases t with
    | system c => simp [toolTurnsCorrelate, intentIds, ih]
    | user c => simp [toolTurnsCorrelate, intentIds, ih]
    | assistant c tcs => simp [toolTurnsCorrelate, intentIds, ih]
    | toolTurn a b r => simp [toolTurnsCorrelate, intentIds, ih, Bool.and_assoc]

/-- Correlation is closed under taking prefixes. -/
theorem toolTurnsCorrelate_take (h : List Turn) (ids : List String)
    (hc : toolTurnsCorrelate h ids = true) (n : Nat) :
    toolTurnsCorrelate (h.take n) ids = true := by
  have happ := toolTurnsCorrelate_append (h.take n) (h.drop n) ids
  rw [List.take_append_drop, hc] at happ
  have h2 := happ.symm
  simp only [Bool.and_eq_true] at h2
  exact h2.1

/-- Every branch of one-intent processing appends exactly one tool-result
turn carrying the id and the name of that intent. -/
theorem processToolCall_history (env : Env) (userId userMessage : String)
    (st : StepState) (tc : ToolCall) :
    ∃ res, (processToolCall env userId userMessage st tc).2.history =
      st.history ++ [Turn.toolTurn tc.id tc.name res] := by
  unfold processToolCall
  split
  · exact ⟨_, rfl⟩
  · split
    · split
      · exact ⟨_, rfl⟩
      · dsimp only
        split
        · exact ⟨_, rfl⟩
        · split
          · exact ⟨_, rfl⟩
          · exact ⟨_, rfl⟩
    · exact ⟨_, rfl⟩

/-- A block of turns that records exactly one tool-result turn per intent,
in order, each carrying the id and the name of its intent. -/
inductive MatchesIntents : List ToolCall → List Turn → Prop
  | nil : MatchesIntents [] []
  | cons (tc : ToolCall) (res : ToolResult) (tcs : List ToolCall) (block : List Turn) :
      MatchesIntents tcs block →
      MatchesIntents (tc :: tcs) (Turn.toolTurn tc.id tc.name res :: block)

/-- A tool-result block records no intents. -/
theorem MatchesIntents.intentIds_eq_nil :
    ∀ {tcs : List ToolCall} {block : List Turn},
      MatchesIntents tcs block → intentIds block = [] := by
  intro tcs block h
  induction h with
  | nil => rfl
  | cons tc res tcs block _ ih => simpa [intentIds] using ih

/-- A tool-result block correlates against any context in which each of
the ids of its intents occurs exactly once. -/
theorem MatchesIntents.correlate :
    ∀ {tcs : List ToolCall} {block : List Turn},
      MatchesIntents tcs block →
      ∀ ids : List String, (∀ tc ∈ tcs, ids.count tc.id = 1) →
      toolTurnsCorrelate block ids = true := by
  intro tcs block h
  induction h with
  | nil => intro ids _; rfl
  | cons tc res tcs block _ ih =>
    intro ids hid
    have h1 : ids.count tc.id = 1 := hid tc (by simp)
    have h2 := ih ids (fun tc2 htc2 => hid tc2 (by simp [htc2]))
    simp [toolTurnsCorrelate, h1, h2]

/-- Processing a batch of intents appends exactly one correlated
tool-result turn per intent. -/
theorem processToolCalls_history (env : Env) (userId userMessage : String) :
    ∀ (tcs : List ToolCall) (st : StepState),
      ∃ block, (processToolCalls env userId userMessage st tcs).2.history =
        st.history ++ block ∧ MatchesIntents tcs block := by
  intro tcs
  induction tcs with
  | nil => intro st; exact ⟨[], by simp [processToolCalls], MatchesIntents.nil⟩
  | cons tc rest ih =>
    intro st
    obtain ⟨res, hres⟩ := processToolCall_history env userId userMessage st tc
    obtain ⟨block, hb, hm⟩ := ih (processToolCall env userId userMessage st tc).2
    refine ⟨Turn.toolTurn tc.id tc.name res :: block, ?_,
      MatchesIntents.cons tc res rest block hm⟩
    simp only [processToolCalls]
    rw [hb, hres]
    simp

/-- The loop only extends the history it is given. -/
theorem agenticLoop_history_extends (env : Env) (userId userMessage cid : String) :
    ∀ (fuel : Nat) (st : StepState) (resp : LlmResponse),
      ∃ ext, (agenticLoop env userId userMessage cid fuel st resp).history =
        st.history ++ ext := by
  intro fuel
  induction fuel with
  | zero => intro st resp; exact ⟨_, rfl⟩
  | succ n ih =>
    intro st resp
    cases hc : resp.toolCalls with
    | nil => simp only [agenticLoop, hc]; exact ⟨_, rfl⟩
    | cons tc tcs =>
      simp only [agenticLoop, hc]
      obtain ⟨block, hb, _⟩ := processToolCalls_history env userId userMessage (tc :: tcs)
        { st with history := st.history ++ [Turn.assistant (resp.content.getD "") (tc :: tcs)] }
      split
      · next e hllm =>
        dsimp only
        rw [hb]
        exact ⟨Turn.assistant (resp.content.getD "") (tc :: tcs) :: block, by simp⟩
      · next resp2 hllm =>
        obtain ⟨ext2, hext2⟩ := ih _ resp2
        dsimp only
        rw [hext2, hb]
        exact ⟨Turn.assistant (resp.content.getD "") (tc :: tcs) :: (block ++ ext2), by simp⟩

/-- The final store-and-reply step preserves correlation: the appended
final assistant turn carries no intents and no back-reference. -/
theorem finalize_correlate (cid : String) (st : StepState) (resp : LlmResponse)
    (hcorr : toolTurnsCorrelate st.history [] = true) :
    toolTurnsCorrelate (finalize cid st resp).history [] = true := by
  unfold finalize
  dsimp only
  rw [toolTurnsCorrelate_append]
  simp [toolTurnsCorrelate, hcorr]

/-- One loop round preserves correlation: the assistant turn records the
intents of the round, and each appended tool-result turn back-references one of
them; with all intent ids of the resulting history distinct, each
back-reference matches exactly one prior intent. -/
theorem round_correlate (env : Env) (userId userMessage : String) (st : StepState)
    (c : String) (tcs : List ToolCall)
    (hcorr : toolTurnsCorrelate st.history [] = true)
    (hnodup : (intentIds (processToolCalls env userId userMessage
      { st with history := st.history ++ [Turn.assistant c tcs] } tcs).2.history).Nodup) :
    toolTurnsCorrelate (processToolCalls env userId userMessage
      { st with history := st.history ++ [Turn.assistant c tcs] } tcs).2.history [] = true := by
  obtain ⟨block, hb, hm⟩ := processToolCalls_history env userId userMessage tcs
    { st with history := st.history ++ [Turn.assistant c tcs] }
  dsimp only at hb
  rw [hb] at hnodup ⊢
  have hblocknil := hm.intentIds_eq_nil
  rw [List.append_assoc, intentIds_append, intentIds_append, hblocknil] at hnodup
  simp only [intentIds, List.append_nil] at hnodup
  rw [List.append_assoc, toolTurnsCorrelate_append, Bool.and_eq_true]
  refine ⟨hcorr, ?_⟩
  rw [List.nil_append]
  show toolTurnsCorrelate (Turn.assistant c tcs :: block) (intentIds st.history) = true
  rw [show toolTurnsCorrelate (Turn.assistant c tcs :: block) (intentIds st.history) =
    toolTurnsCorrelate block (intentIds st.history ++ tcs.map ToolCall.id) from rfl]
  apply hm.correlate
  intro tc htc
  apply List.count_eq_one_of_mem hnodup
  exact List.mem_append_right _ (List.mem_map_of_mem ToolCall.id htc)

/-- The loop preserves correlation under distinct intent ids. -/
theorem agenticLoop_correlate (env : Env) (userId userMessage cid : String) :
    ∀ (fuel : Nat) (st : StepState) (resp : LlmResponse),
      toolTurnsCorrelate st.history [] = true →
      (intentIds (agenticLoop env userId userMessage cid fuel st resp).history).Nodup →
      toolTurnsCorrelate
        (agenticLoop env userId userMessage cid fuel st resp).history [] = true := by
  intro fuel
  induction fuel with
  | zero =>
    intro st resp hcorr _
    simp only [agenticLoop]
    exact finalize_correlate cid st resp hcorr
  | succ n ih =>
    intro st resp hcorr hnodup
    cases hc : resp.toolCalls with
    | nil =>
      simp only [agenticLoop, hc]
      exact finalize_correlate cid st resp hcorr
    | cons tc tcs =>
      simp only [agenticLoop, hc] at hnodup ⊢
      split at hnodup
      · next e hllm =>
        simp only [hllm]
        dsimp only at hnodup ⊢
        exact round_correlate env userId userMessage st (resp.content.getD "") (tc :: tcs)
          hcorr hnodup
      · next resp2 hllm =>
        simp only [hllm]
        dsimp only at hnodup ⊢
        have hnodup2 : (intentIds (processToolCalls env userId userMessage
            { st with history := st.history ++
              [Turn.assistant (resp.content.getD "") (tc :: tcs)] }
            (tc :: tcs)).2.history).Nodup := by
          obtain ⟨ext, hext⟩ := agenticLoop_history_extends env userId userMessage cid n
            (processToolCalls env userId userMessage
              { st with history := st.history ++
                [Turn.assistant (resp.content.getD "") (tc :: tcs)] } (tc :: tcs)).2 resp2
          rw [hext, intentIds_append] at hnodup
          exact (List.nodup_append.mp hnodup).1
        exact ih _ resp2
          (round_correlate env userId userMessage st (resp.content.getD "") (tc :: tcs)
            hcorr hnodup2)
          hnodup

/-- The not-connected, authorization-failed path of one intent: a failed
tool-result turn is recorded and the tool is not invoked. -/
theorem processToolCall_auth_failure (env : Env) (userId userMessage : String)
    (st : StepState) (tc : ToolCall) (tk : String)
    (hname : tc.name ≠ "COMPOSIO_SEARCH")
    (htk : extractToolkitFromToolName tc.name = some tk)
    (hne : tk ≠ "")
    (hconn : (checkConnectionStatus env userId tk).connected = false)
    (hauth : (handleToolkitAuthorization env userId tk).2 = false) :
    processToolCall env userId userMessage st tc =
      (Event.toolCallEv tc.name tc.arguments ::
       Event.connectionStatus tk false true ::
       (handleToolkitAuthorization env userId tk).1 ++
       [Event.toolResultEv tc.name (authFailureResult tk)],
       { st with history := st.history ++
          [Turn.toolTurn tc.id tc.name (authFailureResult tk)] }) := by
  have hra : (checkConnectionStatus env userId tk).requiresAuth = true := by
    rw [checkConnectionStatus_requiresAuth, hconn]; rfl
  unfold processToolCall
  split
  · next hsearch => exact absurd (by simpa using hsearch) hname
  · split
    · next tk2 heq =>
      rw [htk] at heq
      injection heq with heq2
      subst heq2
      rw [if_neg (by simpa using hne)]
      dsimp only
      rw [hconn, hra, if_neg (by simp), if_neg (by simp [hauth])]
    · next heq =>
      rw [htk] at heq
      exact Option.noConfusion heq

/-! ## Claim theorems -/

/-- C1: for every user message and every Model Gateway behavior (the `llm`
oracle is universally quantified, including one that returns tool-call
intents on every round), `handleMessage` is a total function — the loop
variant `MAX_TOOL_ITERATIONS - iterations` strictly decreases — and the
number of executed tool-call rounds never exceeds the configured maximum
of 10. -/
theorem C1_loop_bounded_by_max_iterations (env : Env) (userId msg cid : String) :
    (handleMessage env userId msg cid).rounds ≤ MAX_TOOL_ITERATIONS ∧
    MAX_TOOL_ITERATIONS = 10 := by
  constructor
  · unfold handleMessage
    split
    · simp
    · simpa using agenticLoop_rounds_le env userId msg cid MAX_TOOL_ITERATIONS _ _
  · rfl

/-- The GITHUB_LIST_ISSUES tool definition, for the scenario stub. -/
def ghListTool : Tool := { functionName := some "GITHUB_LIST_ISSUES", payload := 7 }

/-- The search intent of the end-to-end scenario in the spec. -/
def scenarioSearchIntent : ToolCall :=
  { id := "c1", name := "COMPOSIO_SEARCH", arguments := [("query", "list github issues")] }

/-- The execution intent of the end-to-end scenario in the spec. -/
def scenarioGhIntent : ToolCall :=
  { id := "c2", name := "GITHUB_LIST_ISSUES", arguments := [] }

/-- The end-to-end scenario stub: the gateway first asks for a search,
then for the discovered tool, then replies; discovery returns one tool;
the toolkit is connected. -/
def envScenario : Env :=
  { baseEnv with
    llm := fun h _ =>
      if h.length == 2 then Except.ok { content := none, toolCalls := [scenarioSearchIntent] }
      else if h.length == 4 then Except.ok { content := none, toolCalls := [scenarioGhIntent] }
      else Except.ok { content := some "You have no open issues.", toolCalls := [] },
    searchTools := fun _ _ => Except.ok [ghListTool],
    connectedToolkits := fun _ => Except.ok ["github"] }

/-- C2: under the validity hypothesis that the model-assigned call-ids of
the run are unique within the conversation, every tool-result turn of the
final history back-references exactly one tool-call intent recorded in a
preceding assistant turn; and since the loop only appends turns, the same
holds for every prefix of the history, i.e. after every operation of the
loop. -/
theorem C2_referential_integrity (env : Env) (userId msg cid : String)
    (hnodup : (intentIds (handleMessage env userId msg cid).history).Nodup) :
    ∀ n, toolTurnsCorrelate ((handleMessage env userId msg cid).history.take n) [] = true := by
  intro n
  apply toolTurnsCorrelate_take
  unfold handleMessage at hnodup ⊢
  cases hllm : env.llm (initialHistory msg) (initialTools env) with
  | error e =>
    simp only [hllm] at hnodup ⊢
    rfl
  | ok resp =>
    simp only [hllm] at hnodup ⊢
    exact agenticLoop_correlate env userId msg cid MAX_TOOL_ITERATIONS
      { history := initialHistory msg, availableTools := initialTools env } resp rfl hnodup

/-- Witness for C2: the end-to-end scenario run (search round, execution
round, reply) has distinct call-ids c1, c2 and a correlated history. -/
theorem C2_referential_integrity_witness :
    toolTurnsCorrelate
      ((handleMessage envScenario "u" "list my GitHub issues" "c").history.take 7) [] = true :=
  C2_referential_integrity envScenario "u" "list my GitHub issues" "c" (by decide) 7

/-- A search intent with query "q". -/
def searchIntent : ToolCall :=
  { id := "s1", name := "COMPOSIO_SEARCH", arguments := [("query", "q")] }

/-- Twelve distinct tools of an unmentioned toolkit. -/
def manyTools : List Tool :=
  (List.range 12).map fun i => { functionName := some ("OTHER_ACT" ++ toString i), payload := i }

/-- A stub whose gateway asks for one search on the first call and then
stops, and whose discovery returns twelve distinct tools. -/
def envManySearch : Env :=
  { baseEnv with
    llm := fun h _ =>
      if h.length == 2 then Except.ok { content := none, toolCalls := [searchIntent] }
      else Except.ok { content := some "done", toolCalls := [] },
    searchTools := fun _ _ => Except.ok manyTools }

/-- C3 counterexample: the visible tool set is NOT bounded by the fixed
cap `MAX_TOOLS_PER_REQUEST = 12`.  With a single search returning twelve
distinct tools, the follow-up Model Gateway call already receives
13 tools (the search tool plus the twelve merged discoveries): the
gateway-call tool-set sizes of the run are [1, 13]. -/
theorem C3_counterexample :
    (handleMessage envManySearch "u" "m" "c").llmCalls.map List.length = [1, 13] ∧
    ∃ ts ∈ (handleMessage envManySearch "u" "m" "c").llmCalls,
      MAX_TOOLS_PER_REQUEST < ts.length := by
  refine ⟨by decide, by decide⟩

/-- C3 (amended): the visible tool set passed to the Model Gateway is not
bounded by the fixed per-search cap; what holds is that each processed
search intent enlarges it by at most `MAX_TOOLS_PER_REQUEST`, so every
gateway call of a run sees at most `1 + MAX_TOOLS_PER_REQUEST * s` tools,
where `s` is the number of search intents the run processed. -/
theorem C3_visible_tools_growth_bound (env : Env) (userId msg cid : String) :
    ∀ ts ∈ (handleMessage env userId msg cid).llmCalls,
      ts.length ≤ 1 + MAX_TOOLS_PER_REQUEST * (handleMessage env userId msg cid).searchCalls := by
  intro ts hts
  have hinit : (initialTools env).length ≤ 1 := by
    unfold initialTools
    split <;> simp
  unfold handleMessage at hts ⊢
  split at hts
  · next e hllm =>
    simp only [hllm] at hts ⊢
    simp only [List.mem_singleton] at hts
    subst hts
    simpa using hinit
  · next resp hllm =>
    simp only [hllm] at hts ⊢
    rcases List.mem_cons.mp hts with hts1 | hts2
    · subst hts1
      simp only [MAX_TOOLS_PER_REQUEST]
      omega
    · have h2 := agenticLoop_llmCalls_bound env userId msg cid MAX_TOOL_ITERATIONS
        { history := initialHistory msg, availableTools := initialTools env } resp ts hts2
      dsimp only at h2
      simp only [MAX_TOOLS_PER_REQUEST] at h2 ⊢
      omega

/-- Witness for the amended C3: the benign stub makes one gateway call
with the single search tool and performs no search. -/
theorem C3_visible_tools_growth_witness :
    [composioSearchTool].length ≤
      1 + MAX_TOOLS_PER_REQUEST * (handleMessage baseEnv "u" "m" "c").searchCalls :=
  C3_visible_tools_growth_bound baseEnv "u" "m" "c" [composioSearchTool] (by decide)

/-- C4: the prioritizer is a pure function of its arguments; a tool list
within the cap is returned unchanged; an oversized list yields the
prioritized tools followed by the remaining tools, both in input order,
truncated to the cap; and the 20-tools/3-GITHUB/maxCount-5 example of the spec
returns the 3 GITHUB tools first, then the first 2 others. -/
theorem C4_prioritizer_characterization (tools : List Tool) (userMessage : String)
    (maxCount : Nat) :
    (tools.length ≤ maxCount → prioritizeAndLimitTools tools userMessage maxCount = tools)
    ∧ (maxCount < tools.length →
        prioritizeAndLimitTools tools userMessage maxCount =
          (tools.filter (isPrioritizedTool (mentionedToolkits userMessage)) ++
           tools.filter (fun t => !(isPrioritizedTool (mentionedToolkits userMessage) t))).take
            maxCount)
    ∧ prioritizeAndLimitTools exampleTools20 "please use github" 5 =
        [ghTool 1, ghTool 2, ghTool 3, otherTool 1, otherTool 2] := by
  refine ⟨fun h => by simp [prioritizeAndLimitTools, h], fun h => ?_, by decide⟩
  rw [prioritizeAndLimitTools, if_neg (by omega)]
  simp only [List.take_append_eq_append_take, List.length_take]
  congr 1
  congr 1
  omega

/-- Witness for C4 at concrete inputs: a one-element list is below the cap
of 5 and returned unchanged, and an oversized 20-element list is truncated
to the characterized shape. -/
theorem C4_prioritizer_witness :
    prioritizeAndLimitTools [ghTool 1] "m" 5 = [ghTool 1] ∧
    prioritizeAndLimitTools exampleTools20 "please use github" 5 =
      (exampleTools20.filter (isPrioritizedTool (mentionedToolkits "please use github")) ++
       exampleTools20.filter
         (fun t => !(isPrioritizedTool (mentionedToolkits "please use github") t))).take 5 :=
  ⟨(C4_prioritizer_characterization [ghTool 1] "m" 5).1 (by decide),
   (C4_prioritizer_characterization exampleTools20 "please use github" 5).2.1 (by decide)⟩

/-- C5: if the first Model Gateway call raises, the stream is exactly one
Failed event, the gateway was called exactly once (no retry), and the
history holds only the System and User turns — no Assistant turn. -/
theorem C5_first_gateway_failure (env : Env) (userId msg cid e : String)
    (h : env.llm (initialHistory msg) (initialTools env) = .error e) :
    handleMessage env userId msg cid =
      { events := [Event.errorEv ("LLM error: " ++ e)],
        history := [Turn.system SYSTEM_PROMPT, Turn.user msg],
        rounds := 0,
        llmCalls := [initialTools env],
        searchCalls := 0 } := by
  unfold handleMessage
  rw [h]
  rfl

/-- Witness for C5: a gateway stub that raises on every call. -/
theorem C5_first_gateway_failure_witness :
    handleMessage envLlmFails "u" "hi" "c" =
      { events := [Event.errorEv "LLM error: boom"],
        history := [Turn.system SYSTEM_PROMPT, Turn.user "hi"],
        rounds := 0,
        llmCalls := [[composioSearchTool]],
        searchCalls := 0 } := by
  have h := C5_first_gateway_failure envLlmFails "u" "hi" "c" "boom" rfl
  simpa [initialTools, envLlmFails, baseEnv] using h

/-- A concrete GITHUB intent used by witnesses. -/
def ghIntent : ToolCall :=
  { id := "c1", name := "GITHUB_LIST_ISSUES", arguments := [] }

/-- A stub whose tool invocation raises and whose connection check reports
the github toolkit connected. -/
def envExecFails : Env :=
  { baseEnv with
    executeTool := fun _ _ _ => Except.error "tool blew up",
    connectedToolkits := fun _ => Except.ok ["github"] }

/-- C6: a provider exception while invoking a connected non-search tool is
converted into a `successful := false` structured result carrying the
error, recorded as a tool-result turn, and the loop goes on: the remaining
intents are processed from the updated state and the Model Gateway is
called again for the next round instead of the conversation aborting. -/
theorem C6_invocation_error_recovered (env : Env)
    (userId userMessage cid : String) (st : StepState)
    (tc : ToolCall) (rest : List ToolCall) (tk e : String)
    (hname : tc.name ≠ "COMPOSIO_SEARCH")
    (htk : extractToolkitFromToolName tc.name = some tk)
    (hne : tk ≠ "")
    (hconn : (checkConnectionStatus env userId tk).connected = true)
    (hexec : env.executeTool tc.name tc.arguments userId = .error e) :
    processToolCall env userId userMessage st tc =
      ([Event.toolCallEv tc.name tc.arguments,
        Event.connectionStatus tk true false,
        Event.toolResultEv tc.name { successful := false, error := some e }],
       { st with history := st.history ++
          [Turn.toolTurn tc.id tc.name { successful := false, error := some e }] })
    ∧ processToolCalls env userId userMessage st (tc :: rest) =
        ((processToolCall env userId userMessage st tc).1 ++
          (processToolCalls env userId userMessage
            (processToolCall env userId userMessage st tc).2 rest).1,
         (processToolCalls env userId userMessage
            (processToolCall env userId userMessage st tc).2 rest).2)
    ∧ ∀ (fuel : Nat) (resp : LlmResponse), resp.toolCalls = tc :: rest →
        (agenticLoop env userId userMessage cid (fuel + 1) st resp).llmCalls ≠ [] := by
  refine ⟨?_, rfl, ?_⟩
  · have hra : (checkConnectionStatus env userId tk).requiresAuth = false := by
      rw [checkConnectionStatus_requiresAuth, hconn]; rfl
    unfold processToolCall
    split
    · next hsearch => exact absurd (by simpa using hsearch) hname
    · split
      · next tk2 heq =>
        rw [htk] at heq
        injection heq with heq2
        subst heq2
        rw [if_neg (by simpa using hne)]
        dsimp only
        rw [hconn, hra, if_pos rfl]
        unfold execToolResult
        rw [hexec]
      · next heq =>
        rw [htk] at heq
        exact Option.noConfusion heq
  · intro fuel resp hresp
    exact agenticLoop_recalls_gateway env userId userMessage cid fuel st resp
      (by simp [hresp])

/-- Witness for C6: a connected GITHUB intent whose invocation raises. -/
theorem C6_invocation_error_witness :
    processToolCall envExecFails "u" "m" { history := [], availableTools := [] } ghIntent =
      ([Event.toolCallEv "GITHUB_LIST_ISSUES" [],
        Event.connectionStatus "GITHUB" true false,
        Event.toolResultEv "GITHUB_LIST_ISSUES"
          { successful := false, error := some "tool blew up" }],
       { history := [Turn.toolTurn "c1" "GITHUB_LIST_ISSUES"
          { successful := false, error := some "tool blew up" }],
         availableTools := [] }) :=
  (C6_invocation_error_recovered envExecFails "u" "m" "c"
    { history := [], availableTools := [] } ghIntent [] "GITHUB" "tool blew up"
    (by decide) (by decide) (by decide) (by decide) rfl).1

/-- C7: a non-search intent whose toolkit is not connected and whose
authorization sub-flow fails ends with a `successful := false` tool-result
turn for that intent; the tool is provably never invoked (the invocation
oracle is irrelevant to the outcome), the remaining intents of the round
are still processed from the updated state, and the Model Gateway is
called again: the conversation loop is not terminated. -/
theorem C7_authorization_failure_recovered (env : Env)
    (userId userMessage cid : String) (st : StepState)
    (tc : ToolCall) (rest : List ToolCall) (tk : String)
    (hname : tc.name ≠ "COMPOSIO_SEARCH")
    (htk : extractToolkitFromToolName tc.name = some tk)
    (hne : tk ≠ "")
    (hconn : (checkConnectionStatus env userId tk).connected = false)
    (hauth : (handleToolkitAuthorization env userId tk).2 = false) :
    processToolCall env userId userMessage st tc =
      (Event.toolCallEv tc.name tc.arguments ::
       Event.connectionStatus tk false true ::
       (handleToolkitAuthorization env userId tk).1 ++
       [Event.toolResultEv tc.name (authFailureResult tk)],
       { st with history := st.history ++
          [Turn.toolTurn tc.id tc.name (authFailureResult tk)] })
    ∧ (∀ f, processToolCall { env with executeTool := f } userId userMessage st tc =
        processToolCall env userId userMessage st tc)
    ∧ processToolCalls env userId userMessage st (tc :: rest) =
        ((processToolCall env userId userMessage st tc).1 ++
          (processToolCalls env userId userMessage
            (processToolCall env userId userMessage st tc).2 rest).1,
         (processToolCalls env userId userMessage
            (processToolCall env userId userMessage st tc).2 rest).2)
    ∧ ∀ (fuel : Nat) (resp : LlmResponse), resp.toolCalls = tc :: rest →
        (agenticLoop env userId userMessage cid (fuel + 1) st resp).llmCalls ≠ [] := by
  refine ⟨processToolCall_auth_failure env userId userMessage st tc tk
      hname htk hne hconn hauth, ?_, rfl, ?_⟩
  · intro f
    rw [processToolCall_auth_failure { env with executeTool := f } userId userMessage
        st tc tk hname htk hne hconn hauth,
      processToolCall_auth_failure env userId userMessage st tc tk
        hname htk hne hconn hauth]
    rfl
  · intro fuel resp hresp
    exact agenticLoop_recalls_gateway env userId userMessage cid fuel st resp
      (by simp [hresp])

/-- A stub whose authorization wait ends in a failed terminal status. -/
def envAuthFails : Env :=
  { baseEnv with
    waitForConnection := fun _ _ _ => Except.ok { status := "failed", message := none } }

/-- Witness for C7: a GITHUB intent against a not-connected toolkit whose
authorization wait terminates in a failed status. -/
theorem C7_authorization_failure_witness :
    processToolCall envAuthFails "u" "m" { history := [], availableTools := [] } ghIntent =
      (Event.toolCallEv "GITHUB_LIST_ISSUES" [] ::
       Event.connectionStatus "GITHUB" false true ::
       (handleToolkitAuthorization envAuthFails "u" "GITHUB").1 ++
       [Event.toolResultEv "GITHUB_LIST_ISSUES" (authFailureResult "GITHUB")],
       { history := [Turn.toolTurn "c1" "GITHUB_LIST_ISSUES" (authFailureResult "GITHUB")],
         availableTools := [] }) :=
  (C7_authorization_failure_recovered envAuthFails "u" "m" "c"
    { history := [], availableTools := [] } ghIntent [] "GITHUB"
    (by decide) (by decide) (by decide) (by decide) (by decide)).1

/-- A non-search intent whose name has no underscore: the toolkit
derivation yields nothing. -/
def pingIntent : ToolCall := { id := "c0", name := "PING", arguments := [] }

/-- C8 counterexample: the claim demands a ConnectionStatusChecked event
before any invocation for every non-search intent, but for the intent
named PING (no separator in the name) the orchestrator skips the
connection check entirely and invokes the tool directly: the emitted
events are just ToolCallRequested followed by the invocation result, with
no connection-status event at all. -/
theorem C8_counterexample :
    pingIntent.name ≠ "COMPOSIO_SEARCH" ∧
    (processToolCall baseEnv "u" "m" { history := [], availableTools := [] } pingIntent).1 =
      [Event.toolCallEv "PING" [],
       Event.toolResultEv "PING" { successful := true, error := none }] ∧
    ((processToolCall baseEnv "u" "m" { history := [], availableTools := [] }
        pingIntent).1.all fun ev =>
      match ev with
      | Event.connectionStatus _ _ _ => false
      | _ => true) = true := by
  refine ⟨by decide, by decide, by decide⟩

/-- C8 (amended): for every tool-call intent that is not the Search tool
and whose name has at least two underscore-separated segments with a
nonempty leading segment, the orchestrator derives the owning toolkit as
the upper-cased leading segment, queries the connection status, and emits
the ConnectionStatusChecked event directly after ToolCallRequested —
before any invocation of the tool. -/
theorem C8_status_checked_before_invocation (env : Env)
    (userId userMessage : String) (st : StepState) (tc : ToolCall) (tk : String)
    (hname : tc.name ≠ "COMPOSIO_SEARCH")
    (htk : extractToolkitFromToolName tc.name = some tk)
    (hne : tk ≠ "") :
    ∃ rest, (processToolCall env userId userMessage st tc).1 =
      Event.toolCallEv tc.name tc.arguments ::
      Event.connectionStatus tk (checkConnectionStatus env userId tk).connected
        (checkConnectionStatus env userId tk).requiresAuth :: rest := by
  unfold processToolCall
  split
  · next hsearch => exact absurd (by simpa using hsearch) hname
  · split
    · next tk2 heq =>
      rw [htk] at heq
      injection heq with heq2
      subst heq2
      rw [if_neg (by simpa using hne)]
      dsimp only
      split
      · exact ⟨_, rfl⟩
      · split
        · exact ⟨_, rfl⟩
        · exact ⟨_, rfl⟩
    · next heq =>
      rw [htk] at heq
      exact Option.noConfusion heq

/-- Witness for the amended C8: a well-formed GITHUB intent. -/
theorem C8_status_checked_witness :
    ∃ rest, (processToolCall baseEnv "u" "m"
        { history := [], availableTools := [] } ghIntent).1 =
      Event.toolCallEv "GITHUB_LIST_ISSUES" [] ::
      Event.connectionStatus "GITHUB" (checkConnectionStatus baseEnv "u" "GITHUB").connected
        (checkConnectionStatus baseEnv "u" "GITHUB").requiresAuth :: rest :=
  C8_status_checked_before_invocation baseEnv "u" "m"
    { history := [], availableTools := [] } ghIntent "GITHUB"
    (by decide) (by decide) (by decide)

/-- C9: if Authorize reports that no authorization is required, the
sub-flow emits exactly one AuthorizationEstablished event and returns
success, with no AuthorizationRequired or AuthorizationWaiting event; the
wait-for-connection oracle is never consulted (replacing it does not
change the outcome). -/
theorem C9_no_auth_required_short_circuit (env : Env) (userId toolkit : String)
    (ar : AuthResponse)
    (hok : env.authorize userId toolkit = .ok ar)
    (hst : ar.status = env.statusNoAuthRequired) :
    handleToolkitAuthorization env userId toolkit =
      ([Event.connectionEstablished toolkit
          (toolkit ++ " does not require authentication")], true)
    ∧ ∀ w, handleToolkitAuthorization { env with waitForConnection := w } userId toolkit =
        handleToolkitAuthorization env userId toolkit := by
  constructor
  · unfold handleToolkitAuthorization
    rw [hok]
    simp [hst]
  · intro w
    unfold handleToolkitAuthorization
    rw [show ({ env with waitForConnection := w } : Env).authorize = env.authorize from rfl]
    rw [hok]
    simp [hst]

/-- Witness for C9: a provider stub whose Authorize reports no auth
required. -/
theorem C9_no_auth_required_witness :
    handleToolkitAuthorization envNoAuth "u" "GITHUB" =
      ([Event.connectionEstablished "GITHUB"
          "GITHUB does not require authentication"], true) :=
  (C9_no_auth_required_short_circuit envNoAuth "u" "GITHUB" noAuthRequiredResponse
    rfl rfl).1

/-- C10: the connection-status check never propagates a provider
exception: a failing connected-toolkits query yields the not-connected
fallback `{connected := false, requiresAuth := true, status := "unknown"}`,
and a non-search intent with such a toolkit is routed into the
authorization sub-flow (events: intent, status check with connected=false,
the authorization events, then a tool-result) instead of aborting. -/
theorem C10_status_check_error_fallback (env : Env) (userId toolkit e : String)
    (h : env.connectedToolkits userId = .error e) :
    checkConnectionStatus env userId toolkit =
      { connected := false, requiresAuth := true, status := "unknown" }
    ∧ ∀ (userMessage : String) (st : StepState) (tc : ToolCall) (tk : String),
        tc.name ≠ "COMPOSIO_SEARCH" →
        extractToolkitFromToolName tc.name = some tk →
        tk ≠ "" →
        ∃ res, (processToolCall env userId userMessage st tc).1 =
          Event.toolCallEv tc.name tc.arguments ::
          Event.connectionStatus tk false true ::
          (handleToolkitAuthorization env userId tk).1 ++
          [Event.toolResultEv tc.name res] := by
  have hcc : ∀ tk : String, checkConnectionStatus env userId tk =
      { connected := false, requiresAuth := true, status := "unknown" } := by
    intro tk
    unfold checkConnectionStatus
    rw [h]
  refine ⟨hcc toolkit, ?_⟩
  intro userMessage st tc tk hname htk hne
  unfold processToolCall
  split
  · next hsearch => exact absurd (by simpa using hsearch) hname
  · split
    · next tk2 heq =>
      rw [htk] at heq
      injection heq with heq2
      subst heq2
      rw [if_neg (by simpa using hne), hcc tk]
      dsimp only
      rw [if_neg (by simp)]
      split
      · exact ⟨_, rfl⟩
      · exact ⟨_, rfl⟩
    · next heq =>
      rw [htk] at heq
      exact Option.noConfusion heq

/-- Witness for C10: a provider stub whose connected-toolkits query
raises; the status check returns the fallback and a GITHUB intent is
routed through the authorization sub-flow. -/
theorem C10_status_check_error_witness :
    checkConnectionStatus envStatusFails "u" "GITHUB" =
      { connected := false, requiresAuth := true, status := "unknown" } ∧
    ∃ res,
      (processToolCall envStatusFails "u" "m" { history := [], availableTools := [] }
        { id := "c1", name := "GITHUB_LIST_ISSUES", arguments := [] }).1 =
      Event.toolCallEv "GITHUB_LIST_ISSUES" [] ::
      Event.connectionStatus "GITHUB" false true ::
      (handleToolkitAuthorization envStatusFails "u" "GITHUB").1 ++
      [Event.toolResultEv "GITHUB_LIST_ISSUES" res] := by
  have hmain := C10_status_check_error_fallback envStatusFails "u" "GITHUB" "down" rfl
  exact ⟨hmain.1, hmain.2 "m" { history := [], availableTools := [] }
    { id := "c1", name := "GITHUB_LIST_ISSUES", arguments := [] } "GITHUB"
    (by decide) (by decide) (by decide)⟩

end SuperAgent
